import Mathlib

/-!
Shallow embedding of src/hotspot/share/memory/metaspace/chunkAllocSequence.cpp:
the metaspace chunk-size allocation sequence policy. A ConstantChunkAllocSequence
holds a constant array of chunk levels; get_next_chunk_level indexes it, clamping
to the last entry; alloc_sequence_by_space_type is the fixed registry mapping a
(MetaspaceType, is_class) pair to one of the eight static table instances.
-/

namespace metaspace

/-- Modelled from the spec: chklvl_t, the chunk level type from chunkLevel.hpp
(not among the sources under review). The spec treats levels as an opaque
totally ordered set of size classes, smallest 1K doubling upward to
multi-megabyte; we represent a level by its chunk size in bytes. -/
abbrev chklvl_t := Nat

namespace chklvl

/-- Modelled from the spec: the 1K size class. -/
def CHUNK_LEVEL_1K : chklvl_t := 1024

/-- Modelled from the spec: the 2K size class. -/
def CHUNK_LEVEL_2K : chklvl_t := 2048

/-- Modelled from the spec: the 4K size class. -/
def CHUNK_LEVEL_4K : chklvl_t := 4096

/-- Modelled from the spec: the 16K size class. -/
def CHUNK_LEVEL_16K : chklvl_t := 16384

/-- Modelled from the spec: the 256K size class. -/
def CHUNK_LEVEL_256K : chklvl_t := 262144

/-- Modelled from the spec: the 1M size class. -/
def CHUNK_LEVEL_1M : chklvl_t := 1048576

/-- Modelled from the spec: the 4M size class. -/
def CHUNK_LEVEL_4M : chklvl_t := 4194304

end chklvl

/-- C-array indexing with a C int index: some value exactly when the index is
in bounds, none models an out-of-bounds access. -/
def arrayGet (l : List chklvl_t) (i : Int) : Option chklvl_t :=
  if 0 ≤ i then l[i.toNat]? else none

/-- A chunk allocation sequence which can be encoded with a simple const array
(class ConstantChunkAllocSequence). The pointer-and-length pair _entries,
_num_entries is represented by one Lean list. -/
structure ConstantChunkAllocSequence where
  entries : List chklvl_t
  deriving DecidableEq

/-- The _num_entries field: at every construction site it is
sizeof(array)/sizeof(chklvl_t), the array length, as a C int. -/
def ConstantChunkAllocSequence.num_entries (s : ConstantChunkAllocSequence) : Int :=
  s.entries.length

/-- The ConstantChunkAllocSequence constructor: it asserts
_num_entries > 0 ("must not be empty."); the assertion failure is modelled as
none, successful construction as some. -/
def ConstantChunkAllocSequence.construct (array : List chklvl_t) :
    Option ConstantChunkAllocSequence :=
  if 0 < array.length then some ⟨array⟩ else none

/-- chklvl_t get_next_chunk_level(int num_allocated): if
num_allocated >= _num_entries, the caller shall repeat the last allocation
(read _entries at _num_entries - 1); otherwise read _entries at
num_allocated. -/
def ConstantChunkAllocSequence.get_next_chunk_level
    (s : ConstantChunkAllocSequence) (num_allocated : Int) : Option chklvl_t :=
  if num_allocated ≥ s.num_entries then
    arrayGet s.entries (s.num_entries - 1)
  else
    arrayGet s.entries num_allocated

/-- g_sequ_standard_non_class: 4K, 4K, 4K, 4K, 16K, repeat last. -/
def g_sequ_standard_non_class : List chklvl_t :=
  [chklvl.CHUNK_LEVEL_4K, chklvl.CHUNK_LEVEL_4K, chklvl.CHUNK_LEVEL_4K,
   chklvl.CHUNK_LEVEL_4K, chklvl.CHUNK_LEVEL_16K]

/-- g_sequ_standard_class: 2K, 2K, 2K, 2K, 16K, repeat last. -/
def g_sequ_standard_class : List chklvl_t :=
  [chklvl.CHUNK_LEVEL_2K, chklvl.CHUNK_LEVEL_2K, chklvl.CHUNK_LEVEL_2K,
   chklvl.CHUNK_LEVEL_2K, chklvl.CHUNK_LEVEL_16K]

/-- g_sequ_anon_non_class: 1K, repeat last. -/
def g_sequ_anon_non_class : List chklvl_t :=
  [chklvl.CHUNK_LEVEL_1K]

/-- g_sequ_anon_class: 1K, repeat last. -/
def g_sequ_anon_class : List chklvl_t :=
  [chklvl.CHUNK_LEVEL_1K]

/-- g_sequ_refl_non_class: 2K, 1K, repeat last. -/
def g_sequ_refl_non_class : List chklvl_t :=
  [chklvl.CHUNK_LEVEL_2K, chklvl.CHUNK_LEVEL_1K]

/-- g_sequ_refl_class: 1K, repeat last (a single entry). -/
def g_sequ_refl_class : List chklvl_t :=
  [chklvl.CHUNK_LEVEL_1K]

/-- g_sequ_boot_non_class: 4M, 1M, repeat last. -/
def g_sequ_boot_non_class : List chklvl_t :=
  [chklvl.CHUNK_LEVEL_4M, chklvl.CHUNK_LEVEL_1M]

/-- g_sequ_boot_class: 1M, 256K, repeat last. -/
def g_sequ_boot_class : List chklvl_t :=
  [chklvl.CHUNK_LEVEL_1M, chklvl.CHUNK_LEVEL_256K]

/-- DEFINE_CLASS_FOR_ARRAY(standard_non_class). -/
def g_chunk_alloc_sequence_standard_non_class : ConstantChunkAllocSequence :=
  ⟨g_sequ_standard_non_class⟩

/-- DEFINE_CLASS_FOR_ARRAY(standard_class). -/
def g_chunk_alloc_sequence_standard_class : ConstantChunkAllocSequence :=
  ⟨g_sequ_standard_class⟩

/-- DEFINE_CLASS_FOR_ARRAY(anon_non_class). -/
def g_chunk_alloc_sequence_anon_non_class : ConstantChunkAllocSequence :=
  ⟨g_sequ_anon_non_class⟩

/-- DEFINE_CLASS_FOR_ARRAY(anon_class). -/
def g_chunk_alloc_sequence_anon_class : ConstantChunkAllocSequence :=
  ⟨g_sequ_anon_class⟩

/-- DEFINE_CLASS_FOR_ARRAY(refl_non_class). -/
def g_chunk_alloc_sequence_refl_non_class : ConstantChunkAllocSequence :=
  ⟨g_sequ_refl_non_class⟩

/-- DEFINE_CLASS_FOR_ARRAY(refl_class). -/
def g_chunk_alloc_sequence_refl_class : ConstantChunkAllocSequence :=
  ⟨g_sequ_refl_class⟩

/-- DEFINE_CLASS_FOR_ARRAY(boot_non_class). -/
def g_chunk_alloc_sequence_boot_non_class : ConstantChunkAllocSequence :=
  ⟨g_sequ_boot_non_class⟩

/-- DEFINE_CLASS_FOR_ARRAY(boot_class). -/
def g_chunk_alloc_sequence_boot_class : ConstantChunkAllocSequence :=
  ⟨g_sequ_boot_class⟩

/-- Modelled from the spec: MetaspaceType, the usage-category enumeration
(defined outside the sources under review); its four recognized values are
exactly the cases named by the registry switch. -/
inductive MetaspaceType where
  | StandardMetaspaceType
  | ReflectionMetaspaceType
  | ClassMirrorHolderMetaspaceType
  | BootMetaspaceType
  deriving DecidableEq

/-- Identity of the eight static table instances: the registry returns a
pointer, and two results alias the same C++ object exactly when their
SequenceId values are equal. -/
inductive SequenceId where
  | standard_non_class
  | standard_class
  | anon_non_class
  | anon_class
  | refl_non_class
  | refl_class
  | boot_non_class
  | boot_class
  deriving DecidableEq

/-- Dereference a table pointer to the static instance it names. -/
def deref : SequenceId → ConstantChunkAllocSequence
  | .standard_non_class => g_chunk_alloc_sequence_standard_non_class
  | .standard_class => g_chunk_alloc_sequence_standard_class
  | .anon_non_class => g_chunk_alloc_sequence_anon_non_class
  | .anon_class => g_chunk_alloc_sequence_anon_class
  | .refl_non_class => g_chunk_alloc_sequence_refl_non_class
  | .refl_class => g_chunk_alloc_sequence_refl_class
  | .boot_non_class => g_chunk_alloc_sequence_boot_non_class
  | .boot_class => g_chunk_alloc_sequence_boot_class

/-- ChunkAllocSequence::alloc_sequence_by_space_type: the registry switch over
(space_type, is_class). The default branches are ShouldNotReachHere, made
unreachable here by the closed enumeration; note that the is_class branch for
BootMetaspaceType returns the boot_non_class instance. -/
def alloc_sequence_by_space_type (space_type : MetaspaceType) (is_class : Bool) :
    SequenceId :=
  if is_class then
    match space_type with
    | .StandardMetaspaceType => .standard_class
    | .ReflectionMetaspaceType => .refl_class
    | .ClassMirrorHolderMetaspaceType => .anon_class
    | .BootMetaspaceType => .boot_non_class
  else
    match space_type with
    | .StandardMetaspaceType => .standard_non_class
    | .ReflectionMetaspaceType => .refl_non_class
    | .ClassMirrorHolderMetaspaceType => .anon_non_class
    | .BootMetaspaceType => .boot_non_class

/-- Unfolding get_next_chunk_level in the clamp branch. -/
lemma get_next_chunk_level_ge (s : ConstantChunkAllocSequence) (i : Int)
    (h : s.num_entries ≤ i) :
    s.get_next_chunk_level i = arrayGet s.entries (s.num_entries - 1) := by
  rw [ConstantChunkAllocSequence.get_next_chunk_level, if_pos h]

/-- Unfolding get_next_chunk_level in the direct-index branch. -/
lemma get_next_chunk_level_lt (s : ConstantChunkAllocSequence) (i : Int)
    (h : i < s.num_entries) :
    s.get_next_chunk_level i = arrayGet s.entries i := by
  rw [ConstantChunkAllocSequence.get_next_chunk_level, if_neg (by omega)]

/-- On a single-entry table every non-negative index yields the one entry. -/
lemma get_single (l : chklvl_t) (i : Int) (h : 0 ≤ i) :
    ConstantChunkAllocSequence.get_next_chunk_level ⟨[l]⟩ i = some l := by
  rcases lt_or_le i 1 with h1 | h1
  · have : i = 0 := by omega
    rw [this]
    rfl
  · rw [get_next_chunk_level_ge ⟨[l]⟩ i (by simp [ConstantChunkAllocSequence.num_entries]; omega)]
    rfl

/-- On a two-entry table every index at least one yields the second entry. -/
lemma get_pair (a b : chklvl_t) (i : Int) (h : 1 ≤ i) :
    ConstantChunkAllocSequence.get_next_chunk_level ⟨[a, b]⟩ i = some b := by
  rcases lt_or_le i 2 with h2 | h2
  · have : i = 1 := by omega
    rw [this]
    rfl
  · rw [get_next_chunk_level_ge ⟨[a, b]⟩ i (by simp [ConstantChunkAllocSequence.num_entries]; omega)]
    rfl

/-- C1: for every table and every index i with i at least num_entries - 1,
get_next_chunk_level i returns the same value as
get_next_chunk_level (num_entries - 1): past the explicit list the last
element is repeated indefinitely (tail clamp). -/
theorem C1_tail_clamp (s : ConstantChunkAllocSequence) (i : Int)
    (hne : 0 < s.num_entries) (h : s.num_entries - 1 ≤ i) :
    s.get_next_chunk_level i = s.get_next_chunk_level (s.num_entries - 1) := by
  rcases lt_or_le i s.num_entries with hlt | hge
  · have : i = s.num_entries - 1 := by omega
    rw [this]
  · rw [get_next_chunk_level_ge s i hge,
        get_next_chunk_level_lt s (s.num_entries - 1) (by omega)]

/-- C1 witness: the tail clamp at the standard non-class table and index 7. -/
theorem C1_tail_clamp_witness :
    g_chunk_alloc_sequence_standard_non_class.get_next_chunk_level 7
      = g_chunk_alloc_sequence_standard_non_class.get_next_chunk_level
          (g_chunk_alloc_sequence_standard_non_class.num_entries - 1) :=
  C1_tail_clamp g_chunk_alloc_sequence_standard_non_class 7 (by decide) (by decide)

/-- C2 counterexample: for the (BootMetaspaceType, is_class = true) pair the
registry returns the boot non-class table, so get_next_chunk_level 0 yields
4M, not the 1M first level of the boot class-data table the claim names. -/
theorem C2_boot_class_counterexample :
    (deref (alloc_sequence_by_space_type .BootMetaspaceType true)).get_next_chunk_level 0
      ≠ some chklvl.CHUNK_LEVEL_1M
    ∧ (deref (alloc_sequence_by_space_type .BootMetaspaceType true)).get_next_chunk_level 0
      = some chklvl.CHUNK_LEVEL_4M := by
  refine ⟨?_, rfl⟩
  decide

/-- C2 amended: for every recognized (MetaspaceType, is_class) pair the
registry lookup is defined (the returned table yields a level at index 0),
and get_next_chunk_level 0 gives: standard non-class 4K, standard class 2K,
reflective non-class 2K, reflective class 1K, anonymous non-class and class
1K, boot non-class 4M, and boot class also 4M, since the is_class boot branch
returns the non-class table. -/
theorem C2_first_levels :
    (∀ (t : MetaspaceType) (f : Bool),
       ((deref (alloc_sequence_by_space_type t f)).get_next_chunk_level 0).isSome)
    ∧ (deref (alloc_sequence_by_space_type .StandardMetaspaceType false)).get_next_chunk_level 0
        = some chklvl.CHUNK_LEVEL_4K
    ∧ (deref (alloc_sequence_by_space_type .StandardMetaspaceType true)).get_next_chunk_level 0
        = some chklvl.CHUNK_LEVEL_2K
    ∧ (deref (alloc_sequence_by_space_type .ReflectionMetaspaceType false)).get_next_chunk_level 0
        = some chklvl.CHUNK_LEVEL_2K
    ∧ (deref (alloc_sequence_by_space_type .ReflectionMetaspaceType true)).get_next_chunk_level 0
        = some chklvl.CHUNK_LEVEL_1K
    ∧ (deref (alloc_sequence_by_space_type .ClassMirrorHolderMetaspaceType false)).get_next_chunk_level 0
        = some chklvl.CHUNK_LEVEL_1K
    ∧ (deref (alloc_sequence_by_space_type .ClassMirrorHolderMetaspaceType true)).get_next_chunk_level 0
        = some chklvl.CHUNK_LEVEL_1K
    ∧ (deref (alloc_sequence_by_space_type .BootMetaspaceType false)).get_next_chunk_level 0
        = some chklvl.CHUNK_LEVEL_4M
    ∧ (deref (alloc_sequence_by_space_type .BootMetaspaceType true)).get_next_chunk_level 0
        = some chklvl.CHUNK_LEVEL_4M := by
  refine ⟨?_, rfl, rfl, rfl, rfl, rfl, rfl, rfl, rfl⟩
  intro t f
  cases t <;> cases f <;> rfl

/-- C3: the boot category maps to the same non-class table instance for both
values of the is_class flag, while every other category is differentiated by
the flag. -/
theorem C3_boot_same_table (t : MetaspaceType) (ht : t ≠ .BootMetaspaceType) :
    alloc_sequence_by_space_type .BootMetaspaceType true
      = alloc_sequence_by_space_type .BootMetaspaceType false
    ∧ alloc_sequence_by_space_type t true ≠ alloc_sequence_by_space_type t false := by
  refine ⟨rfl, ?_⟩
  cases t
  · decide
  · decide
  · decide
  · exact absurd rfl ht

/-- C3 witness: the boot aliasing together with the flag differentiating the
standard category. -/
theorem C3_boot_same_table_witness :
    alloc_sequence_by_space_type .BootMetaspaceType true
      = alloc_sequence_by_space_type .BootMetaspaceType false
    ∧ alloc_sequence_by_space_type .StandardMetaspaceType true
      ≠ alloc_sequence_by_space_type .StandardMetaspaceType false :=
  C3_boot_same_table .StandardMetaspaceType (by decide)

/-- C4: on the standard non-class table, every index 0..3 yields 4K and every
index at least 4 yields 16K. -/
theorem C4_standard_non_class_ramp (i j : Int)
    (h0 : 0 ≤ i) (h3 : i ≤ 3) (h4 : 4 ≤ j) :
    g_chunk_alloc_sequence_standard_non_class.get_next_chunk_level i
      = some chklvl.CHUNK_LEVEL_4K
    ∧ g_chunk_alloc_sequence_standard_non_class.get_next_chunk_level j
      = some chklvl.CHUNK_LEVEL_16K := by
  constructor
  · interval_cases i
    · rfl
    · rfl
    · rfl
    · rfl
  · rcases lt_or_le j 5 with h5 | h5
    · have : j = 4 := by omega
      rw [this]
      rfl
    · rw [get_next_chunk_level_ge g_chunk_alloc_sequence_standard_non_class j ?_]
      · rfl
      · have : g_chunk_alloc_sequence_standard_non_class.num_entries = 5 := rfl
        omega

/-- C4 witness: the standard non-class ramp at indices 0 and 4. -/
theorem C4_standard_non_class_ramp_witness :
    g_chunk_alloc_sequence_standard_non_class.get_next_chunk_level 0
      = some chklvl.CHUNK_LEVEL_4K
    ∧ g_chunk_alloc_sequence_standard_non_class.get_next_chunk_level 4
      = some chklvl.CHUNK_LEVEL_16K :=
  C4_standard_non_class_ramp 0 4 (by decide) (by decide) (by decide)

/-- C5: for the boot category (either flag), index 0 yields 4M, the largest
level appearing in the returned sequence, and every index at least 1 yields
the smaller plateau level 1M. -/
theorem C5_boot_ramp (f : Bool) (i : Int) (h1 : 1 ≤ i) :
    (deref (alloc_sequence_by_space_type .BootMetaspaceType f)).get_next_chunk_level 0
      = some chklvl.CHUNK_LEVEL_4M
    ∧ (∀ l ∈ (deref (alloc_sequence_by_space_type .BootMetaspaceType f)).entries,
        l ≤ chklvl.CHUNK_LEVEL_4M)
    ∧ (deref (alloc_sequence_by_space_type .BootMetaspaceType f)).get_next_chunk_level i
      = some chklvl.CHUNK_LEVEL_1M := by
  cases f
  · exact ⟨rfl, by decide, get_pair chklvl.CHUNK_LEVEL_4M chklvl.CHUNK_LEVEL_1M i h1⟩
  · exact ⟨rfl, by decide, get_pair chklvl.CHUNK_LEVEL_4M chklvl.CHUNK_LEVEL_1M i h1⟩

/-- C5 witness: the boot ramp for the non-class flag at index 1. -/
theorem C5_boot_ramp_witness :
    (deref (alloc_sequence_by_space_type .BootMetaspaceType false)).get_next_chunk_level 0
      = some chklvl.CHUNK_LEVEL_4M
    ∧ (∀ l ∈ (deref (alloc_sequence_by_space_type .BootMetaspaceType false)).entries,
        l ≤ chklvl.CHUNK_LEVEL_4M)
    ∧ (deref (alloc_sequence_by_space_type .BootMetaspaceType false)).get_next_chunk_level 1
      = some chklvl.CHUNK_LEVEL_1M :=
  C5_boot_ramp false 1 (by decide)

/-- C6: for the anonymous category under either flag, every non-negative index
yields the same single level 1K: there is no ramp. -/
theorem C6_anon_constant (f : Bool) (i : Int) (h : 0 ≤ i) :
    (deref (alloc_sequence_by_space_type .ClassMirrorHolderMetaspaceType f)).get_next_chunk_level i
      = some chklvl.CHUNK_LEVEL_1K := by
  cases f
  · exact get_single chklvl.CHUNK_LEVEL_1K i h
  · exact get_single chklvl.CHUNK_LEVEL_1K i h

/-- C6 witness: the anonymous non-class table at index 0. -/
theorem C6_anon_constant_witness :
    (deref (alloc_sequence_by_space_type .ClassMirrorHolderMetaspaceType false)).get_next_chunk_level 0
      = some chklvl.CHUNK_LEVEL_1K :=
  C6_anon_constant false 0 (by decide)

/-- C7 counterexample: the reflective class-data table has a single entry, not
two, and its levels at indices 0 and 1 coincide rather than differ. -/
theorem C7_refl_class_counterexample :
    (deref (alloc_sequence_by_space_type .ReflectionMetaspaceType true)).entries.length ≠ 2
    ∧ (deref (alloc_sequence_by_space_type .ReflectionMetaspaceType true)).entries.length = 1
    ∧ (deref (alloc_sequence_by_space_type .ReflectionMetaspaceType true)).get_next_chunk_level 0
      = (deref (alloc_sequence_by_space_type .ReflectionMetaspaceType true)).get_next_chunk_level 1 := by
  refine ⟨by decide, rfl, rfl⟩

/-- C7 amended: only the reflective non-class table is a two-entry two-step
ramp: it has exactly two entries, index 0 yields 2K, and every index at least
1 yields the second level 1K; the reflective class-data table has a single 1K
entry, so every non-negative index yields 1K with no ramp. -/
theorem C7_refl_ramp (i j : Int) (h1 : 1 ≤ i) (h0 : 0 ≤ j) :
    (deref (alloc_sequence_by_space_type .ReflectionMetaspaceType false)).entries.length = 2
    ∧ (deref (alloc_sequence_by_space_type .ReflectionMetaspaceType false)).get_next_chunk_level 0
      = some chklvl.CHUNK_LEVEL_2K
    ∧ (deref (alloc_sequence_by_space_type .ReflectionMetaspaceType false)).get_next_chunk_level i
      = some chklvl.CHUNK_LEVEL_1K
    ∧ (deref (alloc_sequence_by_space_type .ReflectionMetaspaceType true)).entries.length = 1
    ∧ (deref (alloc_sequence_by_space_type .ReflectionMetaspaceType true)).get_next_chunk_level j
      = some chklvl.CHUNK_LEVEL_1K :=
  ⟨rfl, rfl, get_pair chklvl.CHUNK_LEVEL_2K chklvl.CHUNK_LEVEL_1K i h1, rfl,
   get_single chklvl.CHUNK_LEVEL_1K j h0⟩

/-- C7 witness: the reflective ramp at indices 1 and 0. -/
theorem C7_refl_ramp_witness :
    (deref (alloc_sequence_by_space_type .ReflectionMetaspaceType false)).entries.length = 2
    ∧ (deref (alloc_sequence_by_space_type .ReflectionMetaspaceType false)).get_next_chunk_level 0
      = some chklvl.CHUNK_LEVEL_2K
    ∧ (deref (alloc_sequence_by_space_type .ReflectionMetaspaceType false)).get_next_chunk_level 1
      = some chklvl.CHUNK_LEVEL_1K
    ∧ (deref (alloc_sequence_by_space_type .ReflectionMetaspaceType true)).entries.length = 1
    ∧ (deref (alloc_sequence_by_space_type .ReflectionMetaspaceType true)).get_next_chunk_level 0
      = some chklvl.CHUNK_LEVEL_1K :=
  C7_refl_ramp 1 0 (by decide) (by decide)

/-- C8: constructing a table with zero entries fails the constructor assertion
(modelled as none); constructing from any non-empty array succeeds; and every
table the registry exposes satisfies the non-empty invariant. -/
theorem C8_nonempty_invariant (array : List chklvl_t) (h : 0 < array.length) :
    ConstantChunkAllocSequence.construct ([] : List chklvl_t) = none
    ∧ ConstantChunkAllocSequence.construct array = some ⟨array⟩
    ∧ ∀ (t : MetaspaceType) (f : Bool),
        0 < (deref (alloc_sequence_by_space_type t f)).num_entries := by
  refine ⟨rfl, ?_, ?_⟩
  · rw [ConstantChunkAllocSequence.construct, if_pos h]
  · intro t f
    cases t <;> cases f <;> decide

/-- C8 witness: the invariant at the one-entry array holding 1K. -/
theorem C8_nonempty_invariant_witness :
    ConstantChunkAllocSequence.construct ([] : List chklvl_t) = none
    ∧ ConstantChunkAllocSequence.construct [chklvl.CHUNK_LEVEL_1K]
      = some ⟨[chklvl.CHUNK_LEVEL_1K]⟩
    ∧ ∀ (t : MetaspaceType) (f : Bool),
        0 < (deref (alloc_sequence_by_space_type t f)).num_entries :=
  C8_nonempty_invariant [chklvl.CHUNK_LEVEL_1K] (by decide)

/-- C9: under the preconditions num_allocated at least 0 and num_entries at
least 1, every array access performed by get_next_chunk_level is in bounds,
so the function yields a level for every such input. -/
theorem C9_total (s : ConstantChunkAllocSequence) (n : Int)
    (h0 : 0 ≤ n) (h1 : 0 < s.num_entries) :
    (s.get_next_chunk_level n).isSome := by
  have hlen : s.num_entries = (s.entries.length : Int) := rfl
  rcases lt_or_le n s.num_entries with hlt | hge
  · rw [get_next_chunk_level_lt s n hlt, arrayGet, if_pos h0,
        List.getElem?_eq_getElem (by omega)]
    rfl
  · rw [get_next_chunk_level_ge s n hge, arrayGet, if_pos (by omega),
        List.getElem?_eq_getElem (by omega)]
    rfl

/-- C9 witness: the standard non-class table at index 2. -/
theorem C9_total_witness :
    (g_chunk_alloc_sequence_standard_non_class.get_next_chunk_level 2).isSome :=
  C9_total g_chunk_alloc_sequence_standard_non_class 2 (by decide) (by decide)

/-- C10: for the anonymous category the is_class flag is behaviorally
irrelevant: the two registry results are distinct table instances, yet at
every non-negative index they yield the same level, 1K. -/
theorem C10_anon_flag_irrelevant (i : Int) (h : 0 ≤ i) :
    alloc_sequence_by_space_type .ClassMirrorHolderMetaspaceType true
      ≠ alloc_sequence_by_space_type .ClassMirrorHolderMetaspaceType false
    ∧ (deref (alloc_sequence_by_space_type .ClassMirrorHolderMetaspaceType true)).get_next_chunk_level i
      = (deref (alloc_sequence_by_space_type .ClassMirrorHolderMetaspaceType false)).get_next_chunk_level i
    ∧ (deref (alloc_sequence_by_space_type .ClassMirrorHolderMetaspaceType true)).get_next_chunk_level i
      = some chklvl.CHUNK_LEVEL_1K := by
  have h1 := get_single chklvl.CHUNK_LEVEL_1K i h
  exact ⟨by decide, h1.trans h1.symm, h1⟩

/-- C10 witness: the anonymous tables agree at index 0. -/
theorem C10_anon_flag_irrelevant_witness :
    alloc_sequence_by_space_type .ClassMirrorHolderMetaspaceType true
      ≠ alloc_sequence_by_space_type .ClassMirrorHolderMetaspaceType false
    ∧ (deref (alloc_sequence_by_space_type .ClassMirrorHolderMetaspaceType true)).get_next_chunk_level 0
      = (deref (alloc_sequence_by_space_type .ClassMirrorHolderMetaspaceType false)).get_next_chunk_level 0
    ∧ (deref (alloc_sequence_by_space_type .ClassMirrorHolderMetaspaceType true)).get_next_chunk_level 0
      = some chklvl.CHUNK_LEVEL_1K :=
  C10_anon_flag_irrelevant 0 (by decide)

end metaspace
